import Mathlib

/-!
Verification development for the beebrains calcium-imaging analysis script
(src/imageB.py).  The script's module-level constants, paradigm-building
branches, masking, contrast construction and analysis-skeleton control flow
are embedded as Lean definitions; real-valued arithmetic (numpy floats) is
modelled over the reals, array index bookkeeping over the naturals, and
image intensities over the rationals.
-/

namespace ImageB

/-! ## Global settings (src/imageB.py, Settings block) -/

def images_per_run : ℕ := 232

def onset_list : List ℕ := [73, 93]

def duration_list : List ℕ := [11, 11]

/-- The concentration amplitude levels, one per run of tests 3 and 4
(src/imageB.py line 91: `amplitude_list = [0.000001, 0.0001, 0.001, 0.01]`). -/
noncomputable def amplitude_list : List ℝ := [0.000001, 0.0001, 0.001, 0.01]

/-! ## Amplitude normalization (src/imageB.py lines 149-153) -/

/-- Pointwise body of `norm_amplitudes`: `max([1 + 0.1*log10(a), 0])`.
`np.log10` is modelled by `Real.logb 10` (they agree on the positive
inputs the script uses). -/
noncomputable def normAmplitude (a : ℝ) : ℝ :=
  max (1 + 0.1 * Real.logb 10 a) 0

/-- `norm_amplitudes(amplitudes)`: map `normAmplitude` over the list
(src/imageB.py lines 149-153). -/
noncomputable def norm_amplitudes (amplitudes : List ℝ) : List ℝ :=
  amplitudes.map normAmplitude

lemma log_ten_ne_zero : Real.log 10 ≠ 0 :=
  ne_of_gt (Real.log_pos (by norm_num))

lemma logb_ten_zpow (k : ℤ) : Real.logb 10 ((10 : ℝ) ^ k) = k := by
  rw [Real.logb, Real.log_zpow, mul_div_assoc, div_self log_ten_ne_zero, mul_one]

lemma normAmplitude_zpow (k : ℤ) :
    normAmplitude ((10 : ℝ) ^ k) = max (1 + 0.1 * (k : ℝ)) 0 := by
  rw [normAmplitude, logb_ten_zpow]

lemma normA_em6 : normAmplitude (0.000001 : ℝ) = 0.4 := by
  rw [show (0.000001 : ℝ) = (10 : ℝ) ^ (-6 : ℤ) by norm_num, normAmplitude_zpow]
  rw [show (1 + 0.1 * ((-6 : ℤ) : ℝ)) = 0.4 by push_cast; norm_num]
  exact max_eq_left (by norm_num)

lemma normA_em4 : normAmplitude (0.0001 : ℝ) = 0.6 := by
  rw [show (0.0001 : ℝ) = (10 : ℝ) ^ (-4 : ℤ) by norm_num, normAmplitude_zpow]
  rw [show (1 + 0.1 * ((-4 : ℤ) : ℝ)) = 0.6 by push_cast; norm_num]
  exact max_eq_left (by norm_num)

lemma normA_em3 : normAmplitude (0.001 : ℝ) = 0.7 := by
  rw [show (0.001 : ℝ) = (10 : ℝ) ^ (-3 : ℤ) by norm_num, normAmplitude_zpow]
  rw [show (1 + 0.1 * ((-3 : ℤ) : ℝ)) = 0.7 by push_cast; norm_num]
  exact max_eq_left (by norm_num)

lemma normA_em2 : normAmplitude (0.01 : ℝ) = 0.8 := by
  rw [show (0.01 : ℝ) = (10 : ℝ) ^ (-2 : ℤ) by norm_num, normAmplitude_zpow]
  rw [show (1 + 0.1 * ((-2 : ℤ) : ℝ)) = 0.8 by push_cast; norm_num]
  exact max_eq_left (by norm_num)

lemma normA_one : normAmplitude (1 : ℝ) = 1 := by
  rw [normAmplitude, Real.logb_one, mul_zero, add_zero]
  exact max_eq_left zero_le_one

/-! ## Paradigm construction (src/imageB.py lines 186-293) -/

/-- The parallel lists handed to `BlockParadigm`: condition ids, onsets,
durations (all frame indices / counts) and event amplitudes. -/
structure Paradigm where
  conditions : List ℕ
  onsets : List ℕ
  durations : List ℕ
  amplitudes : List ℝ

/-- Wavelength-1 table rows per test (src/imageB.py lines 198, 210, 222,
250, 278-283; for test 5 the asleep rows are extended with the awake rows). -/
def rows_lambda1 : ℕ → List ℕ
  | 1 => [9]
  | 2 => [19]
  | 3 => [3, 5, 7, 9]
  | 4 => [13, 15, 17, 19]
  | 5 => [9] ++ [19]
  | _ => []

/-- `n_images = len(rows_lambda1) * images_per_run` (src/imageB.py line 298). -/
def n_images (ntest : ℕ) : ℕ :=
  (rows_lambda1 ntest).length * images_per_run

/-- The shared body of the test-3 and test-4 branches (src/imageB.py
lines 224-243 and 252-271, which are textually identical up to the row
selectors): for `n_runs` runs, condition ids are `2*len(amplitude_list)`
zeros followed by `1..n_runs`; amplitudes are each concentration twice,
then one `1` per run, the whole list passed through `norm_amplitudes`;
onsets are the two odor onsets per run followed by each run's start;
durations are `duration_list` per run followed by one `images_per_run`
per run. -/
noncomputable def gradedParadigm (n_runs : ℕ) : Paradigm where
  conditions :=
    List.replicate (2 * amplitude_list.length) 0 ++ (List.range n_runs).map (· + 1)
  onsets :=
    ((List.range n_runs).flatMap fun irun =>
      [irun * images_per_run + onset_list.getD 0 0,
       irun * images_per_run + onset_list.getD 1 0])
    ++ (List.range n_runs).map (· * images_per_run)
  durations :=
    ((List.range n_runs).flatMap fun _ => duration_list)
    ++ List.replicate n_runs images_per_run
  amplitudes :=
    norm_amplitudes (((amplitude_list.map fun x => [x, x])
      ++ [List.replicate n_runs 1]).flatten)

/-- Test 1 paradigm (src/imageB.py lines 192-203). -/
noncomputable def test1Paradigm : Paradigm where
  conditions := [0, 0]
  onsets := [onset_list.getD 0 0, onset_list.getD 1 0]
  durations := duration_list
  amplitudes := [1, 1]

/-- Test 2 paradigm (src/imageB.py lines 204-215; same lists as test 1,
only the row selectors differ). -/
noncomputable def test2Paradigm : Paradigm where
  conditions := [0, 0]
  onsets := [onset_list.getD 0 0, onset_list.getD 1 0]
  durations := duration_list
  amplitudes := [1, 1]

/-- Test 3 paradigm (src/imageB.py lines 216-243), `n_runs = len(rows_lambda1)`. -/
noncomputable def test3Paradigm : Paradigm :=
  gradedParadigm (rows_lambda1 3).length

/-- Test 4 paradigm (src/imageB.py lines 244-271). -/
noncomputable def test4Paradigm : Paradigm :=
  gradedParadigm (rows_lambda1 4).length

/-- Test 5 paradigm (src/imageB.py lines 272-293). -/
noncomputable def test5Paradigm : Paradigm where
  conditions := [0, 0, 0, 0, 1, 2]
  onsets := [onset_list.getD 0 0, onset_list.getD 1 0,
             onset_list.getD 0 0 + images_per_run,
             onset_list.getD 1 0 + images_per_run,
             0, images_per_run]
  durations := [duration_list.getD 0 0, duration_list.getD 1 0,
                duration_list.getD 0 0, duration_list.getD 1 0]
               ++ [images_per_run, images_per_run]
  amplitudes := [1, 1, 1, 1, 1, 1]

/-- Outcome of entering the test-selection `if/elif` chain with a given
test index.  The source has no `else` branch and no `raise` statement in
this region: an index outside 1..5 matches no branch and leaves the
paradigm variables unset (`fellThrough`).  The `raisedError` constructor
exists only to express the spec's claimed error outcomes; no branch of
the source produces it. -/
inductive BuildOutcome where
  | built (p : Paradigm)
  | fellThrough
  | raisedError (name : String)

/-- The module-level test-selection chain (src/imageB.py lines 186-293). -/
noncomputable def buildParadigm : ℕ → BuildOutcome
  | 1 => .built test1Paradigm
  | 2 => .built test2Paradigm
  | 3 => .built test3Paradigm
  | 4 => .built test4Paradigm
  | 5 => .built test5Paradigm
  | _ => .fellThrough

/-! ## Mask and the analysis skeleton (src/imageB.py lines 380-455)

A 4D volume is flattened to a list of per-voxel time series (one inner
list of rational intensities per voxel); the spatial X multiplied by Y
multiplied by Z indexing is a fixed bijection and plays no role in the
claims. -/

/-- `mask = np.sum(img.get_data(), axis=-1) > 0` (src/imageB.py line 415):
a voxel is included iff the sum of its intensity over all frames is
strictly positive. -/
def voxelMask (vol : List (List ℚ)) : List Bool :=
  vol.map fun ts => decide (0 < ts.sum)

/-- `img.get_data()[mask]`: the time series of the mask-selected voxels. -/
def maskedData (vol : List (List ℚ)) : List (List ℚ) :=
  vol.filter fun ts => decide (0 < ts.sum)

/-- Number of voxels the mask selects. -/
def maskCount (vol : List (List ℚ)) : ℕ :=
  (maskedData vol).length

/-- `np.size(data)` for the scaled masked data.  The external
`data_scaling` (nipy) returns an array of the same shape as its input,
so the element count equals that of the masked series. -/
def dataSize (vol : List (List ℚ)) : ℕ :=
  ((maskedData vol).map List.length).sum

/-- Observable outcome of the `run_analysis` block for one test.
`raised` is the error the block signals; the source contains no `raise`
statement in this block, and the guard `if np.size(data):` simply skips
the GLM fit, the contrast and the output file when the scaled data array
is empty (src/imageB.py lines 415-455). -/
structure TestOutcome where
  glmFitted : Bool
  contrastFileWritten : Bool
  raised : Option String
deriving DecidableEq

/-- The `run_analysis` control-flow skeleton for one test: everything
after the mask line is guarded by `if np.size(data):` with no `else`
(src/imageB.py lines 415-455). -/
def runAnalysisOutcome (vol : List (List ℚ)) : TestOutcome :=
  if dataSize vol ≠ 0 then
    { glmFitted := true, contrastFileWritten := true, raised := none }
  else
    { glmFitted := false, contrastFileWritten := false, raised := none }

/-- The `for itest in range(ntests)` loop (src/imageB.py line 186): each
test's analysis runs on its own preprocessed volume, independently of
the other tests. -/
def runAllTests (vols : List (List (List ℚ))) : List TestOutcome :=
  vols.map runAnalysisOutcome

/-! ## Design-matrix layout and contrast construction
(src/imageB.py lines 392-442) -/

/-- One column of the design matrix. -/
inductive Regressor where
  | cond (id : ℕ)
  | drift (k : ℕ)
  | constant
deriving DecidableEq

/-- Condition lists of the five tests as the chain builds them. -/
noncomputable def paradigmConditions (ntest : ℕ) : List ℕ :=
  match buildParadigm ntest with
  | .built p => p.conditions
  | _ => []

/-- Modelled from the spec: the drift block of nipy's `make_dmtx`
(external library, not under src/).  Tests 1 and 2 pass
`drift_model='polynomial', drift_order=2` and receive a second-degree
polynomial drift basis of three columns with the constant last; tests
3-5 pass no drift arguments with `hfcut=np.inf`, which the spec states
yields no drift regressors (src/imageB.py lines 396-400 decide the
`ntest < 3` branch). -/
def drift_block (ntest : ℕ) : List Regressor :=
  if ntest < 3 then [.drift 1, .drift 2, .constant] else []

/-- Modelled from the spec: column layout of nipy's `make_dmtx` output
(external library, not under src/): one FIR regressor per distinct
condition id, in condition-id order, followed by the drift block. -/
noncomputable def designLayout (ntest : ℕ) : List Regressor :=
  (paradigmConditions ntest).dedup.map .cond ++ drift_block ntest

/-- `design_matrix.shape[1]`: the column count. -/
noncomputable def designNcols (ntest : ℕ) : ℕ :=
  (designLayout ntest).length

/-- The contrast vector the pipeline builds (src/imageB.py lines 437-442):
`contrast = np.zeros(design_matrix.shape[1])`, then `contrast[0] = 1`
for tests 1-4, and `contrast[1] = 1; contrast[2] = -1` for test 5. -/
noncomputable def pipelineContrast (ntest : ℕ) : List ℚ :=
  let z : List ℚ := List.replicate (designNcols ntest) 0
  if ntest < 5 then z.set 0 1 else (z.set 1 1).set 2 (-1)

/-! ## Contrast computation and z-scores (ContrastEngine) -/

/-- Error vocabulary of the spec's ContrastEngine contract. -/
inductive GlmError where
  | configurationError
deriving DecidableEq

/-- Modelled from the spec: the length check of `glm.contrast(c)`
(nipy's `GeneralLinearModel.contrast`, external library, not under
src/): a contrast vector whose length differs from the design matrix's
column count fails with a ConfigurationError, a matching length does
not. -/
def glm_contrast_check (c : List ℚ) (ncols : ℕ) : Except GlmError Unit :=
  if c.length = ncols then .ok () else .error .configurationError

/-- Modelled from the spec: the per-voxel z-score of
`glm_contrast.z_score()` (nipy, external library, not under src/):
`z-score = effect / sqrt(variance), signed`. -/
noncomputable def z_score (effect variance : ℝ) : ℝ :=
  effect / Real.sqrt variance

/-! ## Spec-side reading used by claim C1 -/

/-- Formalization of the claim's phrase, following the spec's words:
in a graded-concentration paradigm the two onset events of each run
(stored at indices `2*r` and `2*r + 1`) are tagged with a condition id
unique to that run, so equal ids among onset events force equal runs. -/
def onsetEventsPerRunUnique (p : Paradigm) (n_runs : ℕ) : Prop :=
  ∀ r s i j, r < n_runs → s < n_runs → i < 2 → j < 2 →
    p.conditions.getD (2 * r + i) 0 = p.conditions.getD (2 * s + j) 0 → r = s

/-! ## Claims -/

/-- C3: amplitude normalization is a total function on real amplitude
inputs with `norm(a) = max(0, 1 + 0.1*log10(a))`; the result is always
nonnegative, `norm(0.01) = 0.8` exactly, and `norm(1) = 1`. -/
theorem C3_norm_total :
    (∀ a : ℝ, normAmplitude a = max 0 (1 + 0.1 * Real.logb 10 a)) ∧
    (∀ a : ℝ, 0 ≤ normAmplitude a) ∧
    normAmplitude 0.01 = 0.8 ∧ normAmplitude 1 = 1 :=
  ⟨fun _ => max_comm _ _, fun _ => le_max_right _ _, normA_em2, normA_one⟩

/-- C1 counterexample: in the test-3 paradigm the onset events are NOT
tagged with per-run unique condition ids: the chain tags every onset
event with the shared condition id 0 (the per-run unique ids 1..4 go to
the baseline events instead), so the onset events of runs 0 and 1 carry
the same id. -/
theorem C1_counterexample : ¬ onsetEventsPerRunUnique test3Paradigm 4 := by
  intro h
  have h01 := h 0 1 0 0 (by decide) (by decide) (by decide) (by decide)
  exact absurd (h01 (by decide)) (by decide)

/-- C1 amended: for tests 3 and 4 the paradigm concatenates, for each of
the 4 runs, two onset events at `run*232 + {73, 93}` all tagged with the
single shared condition id 0 and carrying that run's normalized
concentration amplitude, followed (after all onset events) by one
run-long baseline event per run (onset `run*232`, duration 232) tagged
with the per-run unique condition id `run + 1`; the unit baseline
amplitudes are passed through the normalization transform but are
unchanged by it since `norm(1) = 1`.  Test 4 builds exactly the same
lists as test 3. -/
theorem C1_amended :
    test3Paradigm.conditions = [0, 0, 0, 0, 0, 0, 0, 0, 1, 2, 3, 4] ∧
    test3Paradigm.onsets = [73, 93, 305, 325, 537, 557, 769, 789, 0, 232, 464, 696] ∧
    test3Paradigm.durations = [11, 11, 11, 11, 11, 11, 11, 11, 232, 232, 232, 232] ∧
    test3Paradigm.amplitudes =
      [0.4, 0.4, 0.6, 0.6, 0.7, 0.7, 0.8, 0.8, 1, 1, 1, 1] ∧
    test4Paradigm = test3Paradigm := by
  refine ⟨by decide, by decide, by decide, ?_, rfl⟩
  show norm_amplitudes
      [0.000001, 0.000001, 0.0001, 0.0001, 0.001, 0.001, 0.01, 0.01, 1, 1, 1, 1] = _
  simp [norm_amplitudes, normA_em6, normA_em4, normA_em3, normA_em2, normA_one]

/-- C7: a voxel is included in the mask iff the sum of its intensity
across all time frames is strictly positive, and an all-zero volume
yields an all-false mask (no error: `voxelMask` is a total function). -/
theorem C7_mask_iff :
    (∀ (vol : List (List ℚ)) (i : ℕ), i < vol.length →
      ((voxelMask vol).getD i false = true ↔ 0 < (vol.getD i []).sum)) ∧
    (∀ vol : List (List ℚ), (∀ ts ∈ vol, ∀ x ∈ ts, x = 0) →
      voxelMask vol = List.replicate vol.length false) := by
  constructor
  · intro vol i h
    simp [voxelMask, List.getD, List.getElem?_map, List.getElem?_eq_getElem h]
  · intro vol hz
    induction vol with
    | nil => rfl
    | cons ts rest ih =>
        have hsum : ts.sum = 0 := List.sum_eq_zero (hz ts (by simp))
        have htail := ih fun u hu => hz u (List.mem_cons_of_mem _ hu)
        simp only [voxelMask, List.map_cons, List.length_cons,
          List.replicate_succ] at htail ⊢
        rw [hsum]
        simp only [htail]
        simp

/-- C7 witness: at the concrete volume `[[2, -1], [0, 0]]` voxel 0 is in
the mask (sum 1 is positive), and the all-zero volume `[[0], [0]]` has
the all-false mask. -/
theorem C7_witness :
    ((voxelMask [[(2 : ℚ), -1], [0, 0]]).getD 0 false = true ↔
      0 < (([[(2 : ℚ), -1], [0, 0]] : List (List ℚ)).getD 0 []).sum) ∧
    voxelMask [[(0 : ℚ)], [0]] =
      List.replicate ([[(0 : ℚ)], [0]] : List (List ℚ)).length false :=
  ⟨C7_mask_iff.1 [[(2 : ℚ), -1], [0, 0]] 0 (by norm_num),
   C7_mask_iff.2 [[(0 : ℚ)], [0]] (by simp)⟩

/-- C2 counterexample: on an all-zero 4-voxel, 6-frame volume the
analysis block silently skips the downstream stages and signals no
error whatsoever; in particular it does not raise an EmptyMask error
(the source has no raise statement in the block, only the guard
`if np.size(data):`). -/
theorem C2_counterexample :
    runAnalysisOutcome [[(0 : ℚ), 0, 0], [0, 0, 0]] =
      { glmFitted := false, contrastFileWritten := false, raised := none } ∧
    (runAnalysisOutcome [[(0 : ℚ), 0, 0], [0, 0, 0]]).raised ≠
      some ("EmptyMaskError") := by
  have hd : dataSize [[(0 : ℚ), 0, 0], [0, 0, 0]] = 0 := by
    norm_num [dataSize, maskedData]
  constructor
  · simp [runAnalysisOutcome, hd]
  · simp [runAnalysisOutcome, hd]

/-- C2 amended: if the mask selects zero voxels, the analysis block
silently skips that test's downstream stages without signaling any
error: the GLM fit is not performed, no contrast output file is
produced, nothing is raised, and the per-test loop processes every
other test's volume unchanged. -/
theorem C2_amended :
    ∀ (pre post : List (List (List ℚ))) (vol : List (List ℚ)),
      maskCount vol = 0 →
      runAnalysisOutcome vol =
        { glmFitted := false, contrastFileWritten := false, raised := none } ∧
      runAllTests (pre ++ vol :: post) =
        runAllTests pre ++
          { glmFitted := false, contrastFileWritten := false, raised := none }
            :: runAllTests post := by
  intro pre post vol h
  have hnil : maskedData vol = [] := List.length_eq_zero.mp h
  have hd : dataSize vol = 0 := by simp [dataSize, hnil]
  have houtcome : runAnalysisOutcome vol =
      { glmFitted := false, contrastFileWritten := false, raised := none } := by
    simp [runAnalysisOutcome, hd]
  exact ⟨houtcome, by simp [runAllTests, houtcome]⟩

/-- C2 witness: the all-zero two-voxel volume has an empty mask, the
analysis silently skips it, and a one-test run produces exactly that
skipped outcome. -/
theorem C2_witness :
    maskCount [[(0 : ℚ), 0], [0, 0]] = 0 ∧
    runAnalysisOutcome [[(0 : ℚ), 0], [0, 0]] =
      { glmFitted := false, contrastFileWritten := false, raised := none } ∧
    runAllTests ([] ++ [[(0 : ℚ), 0], [0, 0]] :: []) =
      runAllTests [] ++
        { glmFitted := false, contrastFileWritten := false, raised := none }
          :: runAllTests [] :=
  ⟨by norm_num [maskCount, maskedData],
   (C2_amended [] [] [[(0 : ℚ), 0], [0, 0]] (by norm_num [maskCount, maskedData])).1,
   (C2_amended [] [] [[(0 : ℚ), 0], [0, 0]] (by norm_num [maskCount, maskedData])).2⟩

/-- C4 counterexample: entering the test-selection chain with the
out-of-range index 0 does not fail with a ConfigurationError (no such
error exists in the source); the chain simply matches no branch and
produces nothing. -/
theorem C4_counterexample :
    buildParadigm 0 = .fellThrough ∧
    buildParadigm 0 ≠ .raisedError ("ConfigurationError") :=
  ⟨rfl, fun h => BuildOutcome.noConfusion h⟩

/-- C4 amended: paradigm construction performs no validation and raises
no error: for a test index outside 1..5 the if/elif chain falls through
without constructing a paradigm and without raising anything; indices
1..5 always construct their paradigm unconditionally; and although no
onset-plus-duration check exists, every constructed paradigm does
satisfy onset + duration less than or equal to that test's total frame
count. -/
theorem C4_amended :
    (∀ n : ℕ, (n = 0 ∨ 5 < n) → buildParadigm n = .fellThrough) ∧
    (buildParadigm 1 = .built test1Paradigm ∧
     buildParadigm 2 = .built test2Paradigm ∧
     buildParadigm 3 = .built test3Paradigm ∧
     buildParadigm 4 = .built test4Paradigm ∧
     buildParadigm 5 = .built test5Paradigm) ∧
    (∀ n p, buildParadigm n = .built p →
      ((p.onsets.zip p.durations).all fun od =>
        decide (od.1 + od.2 ≤ n_images n)) = true) := by
  refine ⟨?_, ⟨rfl, rfl, rfl, rfl, rfl⟩, ?_⟩
  · intro n hn
    rcases hn with h0 | h5
    · subst h0; rfl
    · obtain ⟨m, rfl⟩ : ∃ m, n = m + 6 := ⟨n - 6, by omega⟩
      rfl
  · intro n p hp
    rcases n with _ | _ | _ | _ | _ | _ | m
    · exact BuildOutcome.noConfusion hp
    · injection hp with h; subst h; decide
    · injection hp with h; subst h; decide
    · injection hp with h; subst h; decide
    · injection hp with h; subst h; decide
    · injection hp with h; subst h; decide
    · exact BuildOutcome.noConfusion hp

/-- C4 witness: index 6 falls through the chain, and the test-3
paradigm (built at index 3) keeps every onset + duration within the
928 available frames. -/
theorem C4_witness :
    buildParadigm 6 = .fellThrough ∧
    ((test3Paradigm.onsets.zip test3Paradigm.durations).all fun od =>
      decide (od.1 + od.2 ≤ n_images 3)) = true :=
  ⟨C4_amended.1 6 (Or.inr (by norm_num)),
   C4_amended.2.2 3 test3Paradigm rfl⟩

/-- C5: for tests 1-4 the contrast vector carries +1 at position 0 and
0 elsewhere, and position 0 of the design layout is the first condition
regressor; for test 5 it carries +1 at position 1 and -1 at position 2
with 0 elsewhere, and those positions are the two state-baseline
regressors (condition ids 1 and 2). -/
theorem C5_contrast_weights :
    pipelineContrast 1 = [1, 0, 0, 0] ∧
    pipelineContrast 2 = [1, 0, 0, 0] ∧
    pipelineContrast 3 = [1, 0, 0, 0, 0] ∧
    pipelineContrast 4 = [1, 0, 0, 0, 0] ∧
    pipelineContrast 5 = [0, 1, -1] ∧
    (designLayout 1).getD 0 .constant = .cond 0 ∧
    (designLayout 2).getD 0 .constant = .cond 0 ∧
    (designLayout 3).getD 0 .constant = .cond 0 ∧
    (designLayout 4).getD 0 .constant = .cond 0 ∧
    (designLayout 5).getD 1 .constant = .cond 1 ∧
    (designLayout 5).getD 2 .constant = .cond 2 := by
  decide

/-- C6: the design layouts of tests 1 and 2 append the three-column
second-degree polynomial drift basis after the condition regressors,
while tests 3, 4 and 5 contain condition regressors only — no drift
columns. -/
theorem C6_drift :
    designLayout 1 = [.cond 0] ++ [.drift 1, .drift 2, .constant] ∧
    designLayout 2 = [.cond 0] ++ [.drift 1, .drift 2, .constant] ∧
    designLayout 3 = [.cond 0, .cond 1, .cond 2, .cond 3, .cond 4] ∧
    designLayout 4 = [.cond 0, .cond 1, .cond 2, .cond 3, .cond 4] ∧
    designLayout 5 = [.cond 0, .cond 1, .cond 2] := by
  decide

/-- C8: the contrast computation fails with a ConfigurationError iff
the contrast vector's length differs from the design matrix's column
count; in particular the spec's example of a length-2 contrast against
a 3-column matrix fails. -/
theorem C8_contrast_length :
    (∀ (c : List ℚ) (ncols : ℕ),
      glm_contrast_check c ncols = .error .configurationError ↔
        c.length ≠ ncols) ∧
    glm_contrast_check [1, 0] 3 = .error .configurationError := by
  refine ⟨?_, rfl⟩
  intro c ncols
  unfold glm_contrast_check
  split
  · next h => simp [h]
  · next h => simp [h]

/-- C9: for strictly positive contrast variance the z-score (the signed
quotient effect / sqrt(variance)) is strictly positive iff the effect
is strictly positive. -/
theorem C9_zscore_sign :
    ∀ effect variance : ℝ, 0 < variance →
      (0 < z_score effect variance ↔ 0 < effect) := by
  intro e v hv
  have hs : 0 < Real.sqrt v := Real.sqrt_pos.mpr hv
  unfold z_score
  constructor
  · intro h
    rcases lt_trichotomy e 0 with he | he | he
    · exact absurd (div_neg_of_neg_of_pos he hs) (not_lt.mpr (le_of_lt h))
    · rw [he, zero_div] at h
      exact absurd h (lt_irrefl 0)
    · exact he
  · intro h
    exact div_pos h hs

/-- C9 witness: at effect 2 and variance 1 the z-score is positive, as
is the effect. -/
theorem C9_witness :
    (0 : ℝ) < 1 ∧ (0 < z_score 2 1 ↔ (0 : ℝ) < 2) :=
  ⟨by norm_num, C9_zscore_sign 2 1 (by norm_num)⟩

/-- C10: for every test 1..5 the pipeline's own contrast vector —
allocated as a zero vector of the design matrix's column count before
the weights are set — has length exactly that column count, so the
contrast-length-mismatch error condition is unreachable from within the
pipeline. -/
theorem C10_contrast_always_matches :
    ((pipelineContrast 1).length = designNcols 1 ∧
     (pipelineContrast 2).length = designNcols 2 ∧
     (pipelineContrast 3).length = designNcols 3 ∧
     (pipelineContrast 4).length = designNcols 4 ∧
     (pipelineContrast 5).length = designNcols 5) ∧
    (glm_contrast_check (pipelineContrast 1) (designNcols 1) = .ok () ∧
     glm_contrast_check (pipelineContrast 2) (designNcols 2) = .ok () ∧
     glm_contrast_check (pipelineContrast 3) (designNcols 3) = .ok () ∧
     glm_contrast_check (pipelineContrast 4) (designNcols 4) = .ok () ∧
     glm_contrast_check (pipelineContrast 5) (designNcols 5) = .ok ()) :=
  ⟨⟨rfl, rfl, rfl, rfl, rfl⟩, ⟨rfl, rfl, rfl, rfl, rfl⟩⟩

end ImageB
